import Mathlib

/-!
Verification of the giga-open-cost-model distance-cache scripts.

The repository ships two executable scripts under `bin/`:
* `create_cellular_distance_cache` — builds a single-lookup distance cache
  from a cell-tower table and a school table in a workspace directory;
* a school-fetch script that downloads raw school data, merges an optional
  supplemental CSV and writes `schools.csv`.

The scripts delegate the actual nearest-neighbour computation to the
library classes `VectorizedDistanceModel` and `SingleLookupDistanceCache`,
whose sources are not part of this tree; those two pieces are modelled from
the specification (each such definition carries a `Modelled from the spec:`
doc comment).  Everything else is translated directly from the script
sources.
-/

namespace Giga

/-- A located entity: stable identifier plus latitude/longitude.
Coordinates are modelled over `ℚ` (the scripts never branch on
floating-point edge cases relevant to the claims). -/
structure Coordinate where
  id : String
  lat : ℚ
  lon : ℚ
  deriving DecidableEq, Repr

/-- A single nearest-neighbour match produced by the distance engine. -/
structure NeighborMatch where
  source_id : String
  target_id : String
  distance : ℚ
  deriving DecidableEq, Repr

/-- The `maximum_distance` configuration value: the script default is
`math.inf` (unbounded), otherwise a finite float supplied on the CLI. -/
inductive MaxDist where
  | inf : MaxDist
  | finite : ℚ → MaxDist
  deriving DecidableEq, Repr

/-- Distance-bound test: `math.inf` filters nothing. -/
def withinBound : MaxDist → ℚ → Bool
  | MaxDist.inf, _ => true
  | MaxDist.finite b, d => decide (d ≤ b)

/-- Ordering used to rank matches: ascending distance, ties broken by
target identifier ascending (spec: "ties broken by target identifier
ascending for determinism"). -/
def matchLe (a b : NeighborMatch) : Bool :=
  decide (a.distance < b.distance) ||
    (decide (a.distance = b.distance) && !decide (b.target_id < a.target_id))

/-- Insert a match into an already-ranked list. -/
def insertMatch (m : NeighborMatch) : List NeighborMatch → List NeighborMatch
  | [] => [m]
  | x :: xs => if matchLe m x then m :: x :: xs else x :: insertMatch m xs

/-- Insertion sort of matches under `matchLe`. -/
def sortMatches : List NeighborMatch → List NeighborMatch
  | [] => []
  | x :: xs => insertMatch x (sortMatches xs)

/-- Modelled from the spec: the per-query computation of
`VectorizedDistanceModel` (source not under `src/`).  "For each query,
computes distance to every reference using a fixed geodesic formula;
filters to `≤ maximum_distance`; retains the `n_nearest_neighbors`
smallest, sorted ascending, tie-broken by reference identifier."  The
geodesic formula itself is left open by the spec, so the engine is
parametrised by the distance function `dist`. -/
def neighbor_list (dist : Coordinate → Coordinate → ℚ) (K : ℕ) (maxD : MaxDist)
    (refs : List Coordinate) (q : Coordinate) : List NeighborMatch :=
  (sortMatches
    (((refs.map fun r => NeighborMatch.mk q.id r.id (dist q r)).filter
      fun m => withinBound maxD m.distance))).take K

/-- Neighbour lists for a block of queries, keyed by query identifier. -/
def neighborLists (dist : Coordinate → Coordinate → ℚ) (K : ℕ) (maxD : MaxDist)
    (refs : List Coordinate) (queries : List Coordinate) :
    List (String × List NeighborMatch) :=
  queries.map fun q => (q.id, neighbor_list dist K maxD refs q)

/-- Modelled from the spec: splitting the query collection into `fuel`
contiguous partitions of `size` elements each, "final partition absorbs
remainder". -/
def splitChunks : ℕ → ℕ → List Coordinate → List (List Coordinate)
  | 0, _, l => [l]
  | 1, _, l => [l]
  | n + 2, size, l => l.take size :: splitChunks (n + 1) size (l.drop size)

/-- Modelled from the spec: the chunk decomposition used by
`run_chunks` — `n_chunks` contiguous partitions of the query list. -/
def chunksOf (n : ℕ) (l : List Coordinate) : List (List Coordinate) :=
  splitChunks n (l.length / n) l

/-- Modelled from the spec: `VectorizedDistanceModel.run_chunks` (source
not under `src/`): split the queries into `n_chunks` contiguous chunks,
compute neighbour lists chunk by chunk, and merge the per-chunk mappings. -/
def run_chunks (dist : Coordinate → Coordinate → ℚ) (K : ℕ) (maxD : MaxDist)
    (queries refs : List Coordinate) (n_chunks : ℕ) :
    List (String × List NeighborMatch) :=
  ((chunksOf n_chunks queries).map (neighborLists dist K maxD refs)).flatten

/-- Chunks reassemble to the original query list. -/
theorem splitChunks_flatten (fuel size : ℕ) (l : List Coordinate) :
    (splitChunks fuel size l).flatten = l := by
  induction fuel generalizing l with
  | zero => simp [splitChunks]
  | succ n ih =>
    cases n with
    | zero => simp [splitChunks]
    | succ m =>
      simp only [splitChunks, List.flatten]
      rw [ih]
      exact List.take_append_drop _ _

/-- `run_chunks` computes exactly the unchunked per-query mapping. -/
theorem run_chunks_eq (dist : Coordinate → Coordinate → ℚ) (K : ℕ)
    (maxD : MaxDist) (queries refs : List Coordinate) (n : ℕ) :
    run_chunks dist K maxD queries refs n =
      neighborLists dist K maxD refs queries := by
  unfold run_chunks chunksOf neighborLists
  rw [← List.map_flatten, splitChunks_flatten]

/-- Modelled from the spec: the progress-reporting side channel of
`VectorizedDistanceModel` (source not under `src/`).  The engine walks the
chunk list; after each chunk it emits a progress event (the chunk's size)
when the observer is enabled, and nothing otherwise.  Returns the merged
mapping together with the emitted event stream. -/
def runObsGo (progress : Bool)
    (f : List Coordinate → List (String × List NeighborMatch)) :
    List (List Coordinate) → List (String × List NeighborMatch) × List ℕ
  | [] => ([], [])
  | c :: cs =>
    let rest := runObsGo progress f cs
    (f c ++ rest.1, (if progress then [c.length] else []) ++ rest.2)

/-- Modelled from the spec: `run_chunks` with the `progress_bar` flag of
`VectorizedDistanceModel` made explicit as an observable event stream. -/
def run_chunks_observed (progress : Bool) (dist : Coordinate → Coordinate → ℚ)
    (K : ℕ) (maxD : MaxDist) (queries refs : List Coordinate) (n_chunks : ℕ) :
    List (String × List NeighborMatch) × List ℕ :=
  runObsGo progress (neighborLists dist K maxD refs) (chunksOf n_chunks queries)

/-- The computed component of the observed run is the plain chunked run,
whatever the observer flag. -/
theorem runObsGo_fst (progress : Bool)
    (f : List Coordinate → List (String × List NeighborMatch))
    (L : List (List Coordinate)) :
    (runObsGo progress f L).1 = (L.map f).flatten := by
  induction L with
  | nil => rfl
  | cons c cs ih => simp [runObsGo, ih]

-- ------------------------------------------------------------------
-- The school table consumed by create_cellular_distance_cache
-- ------------------------------------------------------------------

/-- A row of `schools.csv` as consumed by the cache builder: a located
school carrying the boolean `connected` flag. -/
structure School where
  giga_id : String
  lat : ℚ
  lon : ℚ
  connected : Bool
  deriving DecidableEq, Repr

/-- `GigaSchoolTable.to_coordinates`: project each school to its
identified coordinate. -/
def schoolsToCoordinates (schools : List School) : List Coordinate :=
  schools.map fun s => Coordinate.mk s.giga_id s.lat s.lon

/-- The connected-school filter of `create_cellular_distance_cache`:
`if not args.include_connected: schools = [s for s in schools if not
s.connected]`. -/
def filterSchools (includeConnected : Bool) (schools : List School) :
    List School :=
  if includeConnected then schools
  else schools.filter fun s => !s.connected

-- ------------------------------------------------------------------
-- CLI argument parsing of create_cellular_distance_cache
-- ------------------------------------------------------------------

/-- The resolved arguments of `create_cellular_distance_cache` after
argparse has applied defaults. -/
structure Args where
  workspaceDirectory : String
  includeConnected : Bool
  nChunks : ℕ
  nNearestNeighbors : ℕ
  maximumDistanceMeters : MaxDist
  fileSuffix : String
  deriving DecidableEq, Repr

/-- The optional arguments actually supplied on the command line; a `none`
field means the option was omitted (`includeConnected` is a `store_true`
flag, so "supplied" simply means the flag was present). -/
structure CliOptions where
  includeConnected : Bool := false
  nChunks : Option ℕ := none
  nNearestNeighbors : Option ℕ := none
  maximumDistanceMeters : Option ℚ := none
  fileSuffix : Option String := none
  deriving DecidableEq, Repr

/-- `parser.parse_args()` of `create_cellular_distance_cache`: each omitted
option resolves to its declared default (`include-connected` false,
`n-chunks` 1000, `n-nearest-neighbors` 20, `maximum-distance-meters`
`math.inf`, `file-suffix` "_cache"). -/
def parse_args (workspaceDirectory : String) (o : CliOptions) : Args where
  workspaceDirectory := workspaceDirectory
  includeConnected := o.includeConnected
  nChunks := o.nChunks.getD 1000
  nNearestNeighbors := o.nNearestNeighbors.getD 20
  maximumDistanceMeters :=
    match o.maximumDistanceMeters with
    | none => MaxDist.inf
    | some q => MaxDist.finite q
  fileSuffix := o.fileSuffix.getD "_cache"

-- ------------------------------------------------------------------
-- SingleLookupDistanceCache and the cache-builder main
-- ------------------------------------------------------------------

/-- Modelled from the spec: `SingleLookupDistanceCache.from_distances`
(source not under `src/`): "keeps only the first (nearest) entry per
source; sources with empty lists are omitted". -/
def from_distances (m : List (String × List NeighborMatch)) :
    List (String × NeighborMatch) :=
  m.filterMap fun p => (p.2.head?).map fun h => (p.1, h)

/-- What the cache builder leaves behind in the workspace. -/
inductive Artifact where
  | emptyFile : String → Artifact
  | jsonCache : String → List (String × NeighborMatch) → Artifact
  deriving DecidableEq, Repr

/-- Observable outcome of one run of the cache builder: the warnings it
logged and the artifact it wrote. -/
structure RunResult where
  warnings : List String
  artifact : Artifact
  deriving DecidableEq, Repr

/-- The workspace directory as the script sees it: `cellular.csv` may be
absent (`none`); `schools.csv` is read only after the cellular check. -/
structure Workspace where
  cellularCsv : Option (List Coordinate)
  schoolsCsv : List School
  deriving Repr

/-- `main` of `create_cellular_distance_cache`, parametrised by the
geodesic distance function.  An `Except.error` models an uncaught Python
exception; the missing-`cellular.csv` branch logs a warning, creates the
empty file and returns normally. -/
def cacheBuilderMain (dist : Coordinate → Coordinate → ℚ) (ws : Workspace)
    (a : Args) : Except String RunResult :=
  match ws.cellularCsv with
  | none =>
    Except.ok
      { warnings := ["Cell tower file not found in " ++ a.workspaceDirectory
          ++ ", creating empty file."]
        artifact := Artifact.emptyFile "cellular.csv" }
  | some towers =>
    let school_coords := filterSchools a.includeConnected ws.schoolsCsv
    let dists_cellular := run_chunks dist a.nNearestNeighbors
      a.maximumDistanceMeters (schoolsToCoordinates school_coords) towers
      a.nChunks
    Except.ok
      { warnings := []
        artifact := Artifact.jsonCache ("cellular" ++ a.fileSuffix ++ ".json")
          (from_distances dists_cellular) }

-- ------------------------------------------------------------------
-- The school-fetch script
-- ------------------------------------------------------------------

/-- A row of the base frame built from the fetched schools
(`GigaSchoolTable.to_data_frame`, source not under `src/`; the fields are
the columns the script reads or writes).  Cell values that may be missing
(pandas NA) are `Option`s. -/
structure FrameRow where
  giga_id : String
  school_zone : String
  connectivity_status : Option String
  num_students : Option ℤ
  has_electricity : Option String
  has_fiber : Option String
  cell_coverage_type : Option String
  deriving DecidableEq, Repr

/-- A row of `schools_supplemental.csv` after the script's column
projection and rename (`giga_id_school → giga_id`, `electricity →
has_electricity`, `fiber → has_fiber`, `coverage_type →
cell_coverage_type`). -/
structure SupRow where
  giga_id : String
  has_electricity : Option String
  has_fiber : Option String
  num_students : Option ℤ
  cell_coverage_type : Option String
  deriving DecidableEq, Repr

/-- The supplemental CSV as read from disk: its header row plus its data
rows (already in `SupRow` shape for the columns the script keeps). -/
structure SupCsv where
  columns : List String
  rows : List SupRow
  deriving Repr

/-- The columns the script asserts to be present in the supplemental
table. -/
def requiredSupColumns : List String :=
  ["giga_id_school", "electricity", "fiber", "num_students", "coverage_type"]

/-- The assertion message of the supplemental-column check. -/
def supMissingColumnsMsg : String :=
  "Supplemental data is missing required columns"

/-- The assertion message of the empty-primary-source check. -/
def noSchoolsMsg : String :=
  "No schools found for country, perhaps there is an issue with the project connect API"

/-- `pandas.DataFrame.update` on one row: a supplemental value overwrites
the base value only where the supplemental value is present (non-NA). -/
def applyUpdate (r : FrameRow) (s : SupRow) : FrameRow :=
  { r with
    has_electricity := (s.has_electricity).orElse fun _ => r.has_electricity
    has_fiber := (s.has_fiber).orElse fun _ => r.has_fiber
    num_students := (s.num_students).orElse fun _ => r.num_students
    cell_coverage_type :=
      (s.cell_coverage_type).orElse fun _ => r.cell_coverage_type }

/-- `frame.update(sup)` after both are indexed by `giga_id`: each base row
is updated from the supplemental row with the matching identifier, if
any. -/
def update_frame (frame : List FrameRow) (sup : List SupRow) : List FrameRow :=
  frame.map fun r =>
    match sup.find? (fun s => s.giga_id == r.giga_id) with
    | none => r
    | some s => applyUpdate r s

/-- `frame["connected"]`: the lambda
`True if (x == "Good" or x == "Moderate") else False` applied to the
`connectivity_status` cell (a missing cell compares unequal to both). -/
def toConnected (x : Option String) : Bool :=
  if x == some "Good" || x == some "Moderate" then true else false

/-- A row of the `schools.csv` the fetch script writes, after the
`num_students` coercion, the `connected` column and the final renames
(`giga_id → giga_id_school`, `school_zone → environment`,
`connectivity_status → connectivity_speed_status`). -/
structure OutRow where
  giga_id_school : String
  environment : String
  connectivity_speed_status : Option String
  num_students : ℤ
  connected : Bool
  has_electricity : Option String
  has_fiber : Option String
  cell_coverage_type : Option String
  deriving DecidableEq, Repr

/-- The final per-row transform of the fetch script:
`num_students := int(0 if x is None else x)`, `connected` from
`connectivity_status`, then the column renames. -/
def transformRow (r : FrameRow) : OutRow where
  giga_id_school := r.giga_id
  environment := r.school_zone
  connectivity_speed_status := r.connectivity_status
  num_students := (r.num_students).getD 0
  connected := toConnected r.connectivity_status
  has_electricity := r.has_electricity
  has_fiber := r.has_fiber
  cell_coverage_type := r.cell_coverage_type

/-- The supplemental-loading step of the fetch script: a missing file
(`FileNotFoundError`) degrades to an empty table
(`pd.DataFrame(columns=["giga_id"])`); a present file must contain every
required column or the assertion aborts the run. -/
def loadSupplemental (sup : Option SupCsv) : Except String (List SupRow) :=
  match sup with
  | none => Except.ok []
  | some t =>
    if requiredSupColumns.all (fun k => t.columns.contains k) then
      Except.ok t.rows
    else Except.error supMissingColumnsMsg

/-- `main` of the fetch script, from the point where the API data and the
workspace state are in hand: load the supplemental table, assert the
primary source non-empty, update the base frame, apply the per-row
transforms; `Except.error` models an uncaught exception (no output file is
written on that path). -/
def fetchMain (raw_schools : List FrameRow) (sup : Option SupCsv) :
    Except String (List OutRow) :=
  match loadSupplemental sup with
  | Except.error e => Except.error e
  | Except.ok supRows =>
    if raw_schools.length > 0 then
      Except.ok ((update_frame raw_schools supRows).map transformRow)
    else Except.error noSchoolsMsg

-- ------------------------------------------------------------------
-- Helper lemmas
-- ------------------------------------------------------------------

/-- Membership in the single-lookup cache: an entry `(k, v)` is present
exactly when some neighbour list of the engine output is keyed by `k` and
has `v` at its head. -/
theorem mem_from_distances (m : List (String × List NeighborMatch))
    (k : String) (v : NeighborMatch) :
    (k, v) ∈ from_distances m ↔
      ∃ nl, (k, nl) ∈ m ∧ nl.head? = some v := by
  unfold from_distances
  rw [List.mem_filterMap]
  constructor
  · rintro ⟨⟨k2, nl⟩, hmem, heq⟩
    rcases Option.map_eq_some'.mp heq with ⟨h0, hh, hpair⟩
    injection hpair with hk hv
    subst hk; subst hv
    exact ⟨nl, hmem, hh⟩
  · rintro ⟨nl, hmem, hh⟩
    exact ⟨(k, nl), hmem, by simp [hh]⟩

/-- `frame.update` against an empty supplemental table changes nothing. -/
theorem update_frame_nil (frame : List FrameRow) :
    update_frame frame [] = frame := by
  unfold update_frame
  simp [List.find?]

/-- The script's connectivity lambda is true exactly on "Good" and
"Moderate". -/
theorem toConnected_iff (x : Option String) :
    toConnected x = true ↔ (x = some "Good" ∨ x = some "Moderate") := by
  simp [toConnected]

-- ------------------------------------------------------------------
-- Claims
-- ------------------------------------------------------------------

/-- C1: when `cellular.csv` is absent from the workspace, the cache
builder logs a "not found" warning, leaves an empty `cellular.csv`
artifact in the workspace, and terminates normally (`Except.ok`, no
exception raised). -/
theorem claim_C1 (dist : Coordinate → Coordinate → ℚ) (ws : Workspace)
    (a : Args) (h : ws.cellularCsv = none) :
    cacheBuilderMain dist ws a =
      Except.ok
        { warnings := ["Cell tower file not found in " ++ a.workspaceDirectory
            ++ ", creating empty file."]
          artifact := Artifact.emptyFile "cellular.csv" } := by
  unfold cacheBuilderMain
  rw [h]

/-- Witness for C1 at a concrete workspace with no cell-tower table. -/
theorem claim_C1_witness :
    cacheBuilderMain (fun _ _ => 0)
        { cellularCsv := none, schoolsCsv := [] }
        { workspaceDirectory := "ws", includeConnected := false,
          nChunks := 1000, nNearestNeighbors := 20,
          maximumDistanceMeters := MaxDist.inf, fileSuffix := "_cache" } =
      Except.ok
        { warnings := ["Cell tower file not found in " ++ "ws"
            ++ ", creating empty file."]
          artifact := Artifact.emptyFile "cellular.csv" } :=
  claim_C1 (fun _ _ => 0) _ _ rfl

/-- C2: the chunk count never affects the result of `run_chunks` — any
two chunk counts (in particular `1` and `|queries|`) yield identical
neighbour-list mappings. -/
theorem claim_C2 (dist : Coordinate → Coordinate → ℚ) (K : ℕ)
    (maxD : MaxDist) (queries refs : List Coordinate) (na nb : ℕ) :
    run_chunks dist K maxD queries refs na =
      run_chunks dist K maxD queries refs nb := by
  rw [run_chunks_eq, run_chunks_eq]

/-- C3: with `include-connected` false every school whose `connected`
flag is true is excluded from the query set and every school whose flag
is false is retained; with the flag true no school is removed. -/
theorem claim_C3 (schools : List School) :
    (∀ s ∈ schools, s.connected = true → s ∉ filterSchools false schools) ∧
    (∀ s ∈ schools, s.connected = false → s ∈ filterSchools false schools) ∧
    filterSchools true schools = schools := by
  refine ⟨?_, ?_, rfl⟩
  · intro s _ hc hin
    simp only [filterSchools, if_neg Bool.false_ne_true, List.mem_filter] at hin
    rw [hc] at hin
    simp at hin
  · intro s hs hc
    simp [filterSchools, List.mem_filter, hs, hc]

/-- Witness for C3: a connected school is dropped, an unconnected one is
kept, and the `true` flag keeps everything. -/
theorem claim_C3_witness :
    (School.mk "A" 0 0 true ∉
        filterSchools false [School.mk "A" 0 0 true, School.mk "B" 0 1 false]) ∧
    (School.mk "B" 0 1 false ∈
        filterSchools false [School.mk "A" 0 0 true, School.mk "B" 0 1 false]) ∧
    filterSchools true [School.mk "A" 0 0 true, School.mk "B" 0 1 false] =
      [School.mk "A" 0 0 true, School.mk "B" 0 1 false] :=
  ⟨(claim_C3 [School.mk "A" 0 0 true, School.mk "B" 0 1 false]).1
      (School.mk "A" 0 0 true) (by simp) rfl,
    (claim_C3 [School.mk "A" 0 0 true, School.mk "B" 0 1 false]).2.1
      (School.mk "B" 0 1 false) (by simp) rfl,
    (claim_C3 [School.mk "A" 0 0 true, School.mk "B" 0 1 false]).2.2⟩

/-- C4: with no optional CLI arguments, the configuration handed to the
core is exactly `n_nearest_neighbors = 20`, `maximum_distance = ∞`,
`n_chunks = 1000`, `include-connected = false`; consequently the cache
builder invokes the engine with precisely those values. -/
theorem claim_C4 (w : String) :
    (parse_args w {}).nNearestNeighbors = 20 ∧
    (parse_args w {}).maximumDistanceMeters = MaxDist.inf ∧
    (parse_args w {}).nChunks = 1000 ∧
    (parse_args w {}).includeConnected = false ∧
    ∀ (dist : Coordinate → Coordinate → ℚ) (towers : List Coordinate)
      (schools : List School),
      cacheBuilderMain dist
          { cellularCsv := some towers, schoolsCsv := schools }
          (parse_args w {}) =
        Except.ok
          { warnings := []
            artifact := Artifact.jsonCache ("cellular" ++ "_cache" ++ ".json")
              (from_distances (run_chunks dist 20 MaxDist.inf
                (schoolsToCoordinates (filterSchools false schools))
                towers 1000)) } :=
  ⟨rfl, rfl, rfl, rfl, fun _ _ _ => rfl⟩

/-- C5: on a successful run (cell-tower table present), the persisted
artifact is the single-lookup JSON cache built from the engine output:
each entry pairs a source identifier with exactly one match, namely the
head of that source's neighbour list, and sources with empty lists are
omitted. -/
theorem claim_C5 (dist : Coordinate → Coordinate → ℚ) (ws : Workspace)
    (a : Args) (towers : List Coordinate)
    (h : ws.cellularCsv = some towers) :
    ∃ cache : List (String × NeighborMatch),
      cacheBuilderMain dist ws a =
        Except.ok
          { warnings := []
            artifact :=
              Artifact.jsonCache ("cellular" ++ a.fileSuffix ++ ".json")
                cache } ∧
      ∀ k v, (k, v) ∈ cache ↔
        ∃ nl, (k, nl) ∈ run_chunks dist a.nNearestNeighbors
              a.maximumDistanceMeters
              (schoolsToCoordinates
                (filterSchools a.includeConnected ws.schoolsCsv))
              towers a.nChunks ∧
          nl.head? = some v := by
  refine ⟨from_distances (run_chunks dist a.nNearestNeighbors
    a.maximumDistanceMeters
    (schoolsToCoordinates (filterSchools a.includeConnected ws.schoolsCsv))
    towers a.nChunks), ?_, ?_⟩
  · unfold cacheBuilderMain
    rw [h]
  · intro k v
    exact mem_from_distances _ k v

/-- Witness for C5 at a concrete one-school, one-tower workspace. -/
theorem claim_C5_witness :
    ∃ cache : List (String × NeighborMatch),
      cacheBuilderMain (fun _ _ => 7)
          { cellularCsv := some [Coordinate.mk "T1" 0 1]
            schoolsCsv := [School.mk "A" 0 0 false] }
          { workspaceDirectory := "ws", includeConnected := false,
            nChunks := 1000, nNearestNeighbors := 20,
            maximumDistanceMeters := MaxDist.inf, fileSuffix := "_cache" } =
        Except.ok
          { warnings := []
            artifact :=
              Artifact.jsonCache ("cellular" ++ "_cache" ++ ".json") cache } ∧
      ∀ k v, (k, v) ∈ cache ↔
        ∃ nl, (k, nl) ∈ run_chunks (fun _ _ => 7) 20 MaxDist.inf
              (schoolsToCoordinates
                (filterSchools false [School.mk "A" 0 0 false]))
              [Coordinate.mk "T1" 0 1] 1000 ∧
          nl.head? = some v :=
  claim_C5 (fun _ _ => 7)
    { cellularCsv := some [Coordinate.mk "T1" 0 1]
      schoolsCsv := [School.mk "A" 0 0 false] }
    { workspaceDirectory := "ws", includeConnected := false,
      nChunks := 1000, nNearestNeighbors := 20,
      maximumDistanceMeters := MaxDist.inf, fileSuffix := "_cache" }
    [Coordinate.mk "T1" 0 1] rfl

/-- C6: a present supplemental table missing a required column makes the
fetch run abort with the error naming the violated constraint
("Supplemental data is missing required columns"). -/
theorem claim_C6 (raw : List FrameRow) (t : SupCsv) (k : String)
    (hk : k ∈ requiredSupColumns) (hmiss : k ∉ t.columns) :
    fetchMain raw (some t) = Except.error supMissingColumnsMsg := by
  have hall : (requiredSupColumns.all fun c => t.columns.contains c) = false := by
    rw [List.all_eq_false]
    refine ⟨k, hk, ?_⟩
    simp [hmiss]
  have hload : loadSupplemental (some t) = Except.error supMissingColumnsMsg := by
    simp only [loadSupplemental]
    rw [hall]
    rfl
  unfold fetchMain
  rw [hload]

/-- Witness for C6: a supplemental table lacking the `electricity` column
aborts the run. -/
theorem claim_C6_witness :
    fetchMain []
        (some { columns := ["giga_id_school", "fiber", "num_students",
                  "coverage_type"],
                rows := [] }) =
      Except.error supMissingColumnsMsg :=
  claim_C6 []
    { columns := ["giga_id_school", "fiber", "num_students", "coverage_type"]
      rows := [] }
    "electricity" (by simp [requiredSupColumns]) (by simp)

/-- C7: with zero schools fetched from the API the fetch script aborts
with a fatal error (for every supplemental-table state), producing no
output. -/
theorem claim_C7 (sup : Option SupCsv) :
    ∃ msg, fetchMain [] sup = Except.error msg := by
  unfold fetchMain
  cases hls : loadSupplemental sup with
  | error e => exact ⟨e, rfl⟩
  | ok supRows => exact ⟨noSchoolsMsg, rfl⟩

/-- C8: with the supplemental table entirely absent the run succeeds
(given a non-empty primary source) and the written schools table is the
transformed primary data, untouched by any supplemental update. -/
theorem claim_C8 (raw : List FrameRow) (h : raw ≠ []) :
    fetchMain raw none = Except.ok (raw.map transformRow) := by
  have h0 : raw.length > 0 := List.length_pos.mpr h
  have hload : loadSupplemental none = Except.ok ([] : List SupRow) := rfl
  unfold fetchMain
  rw [hload]
  dsimp only
  rw [if_pos h0, update_frame_nil]

/-- Witness for C8 at a one-row primary table. -/
theorem claim_C8_witness :
    fetchMain [FrameRow.mk "g1" "urban" (some "Good") (some 12) none none none]
        none =
      Except.ok
        [transformRow
          (FrameRow.mk "g1" "urban" (some "Good") (some 12) none none none)] :=
  claim_C8 [FrameRow.mk "g1" "urban" (some "Good") (some 12) none none none]
    (by simp)

/-- C9: the progress observer never influences the engine output — the
computed mapping with the observer enabled equals the one with it
disabled, and both equal the plain `run_chunks` result. -/
theorem claim_C9 (dist : Coordinate → Coordinate → ℚ) (K : ℕ)
    (maxD : MaxDist) (queries refs : List Coordinate) (n : ℕ) :
    (run_chunks_observed true dist K maxD queries refs n).1 =
      (run_chunks_observed false dist K maxD queries refs n).1 ∧
    (run_chunks_observed true dist K maxD queries refs n).1 =
      run_chunks dist K maxD queries refs n := by
  constructor
  · rw [run_chunks_observed, run_chunks_observed, runObsGo_fst, runObsGo_fst]
  · rw [run_chunks_observed, runObsGo_fst]
    rfl

/-- C10: in the written schools table, `connected` is true exactly when
the school's connectivity status (written out as
`connectivity_speed_status`) is "Good" or "Moderate"; any other or absent
status yields false. -/
theorem claim_C10 (raw : List FrameRow) (sup : Option SupCsv)
    (out : List OutRow) (h : fetchMain raw sup = Except.ok out) :
    ∀ r ∈ out, (r.connected = true ↔
      (r.connectivity_speed_status = some "Good" ∨
        r.connectivity_speed_status = some "Moderate")) := by
  intro r hr
  unfold fetchMain at h
  cases hls : loadSupplemental sup with
  | error e =>
    rw [hls] at h
    simp at h
  | ok supRows =>
    rw [hls] at h
    dsimp only at h
    by_cases hlen : raw.length > 0
    · rw [if_pos hlen] at h
      injection h with h
      subst h
      rcases List.mem_map.mp hr with ⟨r0, _, hr0⟩
      subst hr0
      exact toConnected_iff r0.connectivity_status
    · rw [if_neg hlen] at h
      exact absurd h (by simp)

/-- Witness for C10: a "Good" school is connected, an unlabelled one is
not. -/
theorem claim_C10_witness :
    ((transformRow
        (FrameRow.mk "g1" "urban" (some "Good") none none none
          none)).connected = true ↔
      ((transformRow
          (FrameRow.mk "g1" "urban" (some "Good") none none none
            none)).connectivity_speed_status = some "Good" ∨
        (transformRow
          (FrameRow.mk "g1" "urban" (some "Good") none none none
            none)).connectivity_speed_status = some "Moderate")) :=
  claim_C10
    [FrameRow.mk "g1" "urban" (some "Good") none none none none] none
    [transformRow (FrameRow.mk "g1" "urban" (some "Good") none none none none)]
    rfl
    (transformRow (FrameRow.mk "g1" "urban" (some "Good") none none none none))
    (by simp)

end Giga
